import Mathlib

/-!
Verification of the upload-and-analyze pipeline of the WeChat-Moments
analysis repository (an Express relay in `src/unnamed/part_000` and a
React upload client in `src/frontend/src/App.tsx`).

The server pipeline is embedded as pure Lean functions:
* the multer upload stage (configuration at part_000 lines 25-35,
  error mapping at lines 47-54) becomes `processUpload`;
* the analyze handler body (lines 55-156) becomes `analyzeCore`;
* the fence cleanup (line 136) becomes `cleanContent`;
* `JSON.parse` is modelled by the executable `jsonParse` below.

Machine-level details that the claims do not touch (actual image bytes,
the prompt text, base64 encoding) are left out; file metadata that the
validation logic reads (declared MIME type, byte size) is kept.
-/

set_option autoImplicit false

namespace Roast

/-- The backtick character, U+0060. -/
def tick : Char := '`'

/-- `listStartsWith p s` holds when `p` is an initial segment of `s`.
Embeds the JavaScript `String.prototype.startsWith` test used by the
multer `fileFilter` (`file.mimetype.startsWith('image/')`,
part_000 line 29). -/
def listStartsWith : List Char → List Char → Bool
  | [], _ => true
  | _ :: _, [] => false
  | p :: ps, c :: cs => p = c && listStartsWith ps cs

/-- Whitespace removed by JavaScript `String.prototype.trim` (restricted
to the code points that can reach this relay's cleanup step: ASCII
whitespace plus NBSP, BOM and the Unicode line separators). -/
def isJsWs (c : Char) : Bool :=
  c = ' ' || c = '\t' || c = '\n' || c = '\r' || c = '\x0b' || c = '\x0c' ||
  c.toNat = 160 || c.toNat = 65279 || c.toNat = 8232 || c.toNat = 8233

/-- Both-ends whitespace trim, the embedding of `.trim()` (part_000
line 136). -/
def trimList (s : List Char) : List Char :=
  ((s.dropWhile isJsWs).reverse.dropWhile isJsWs).reverse

/-- Embedding of `aiContent.replace(/<tick><tick><tick>json/g, '')`
(part_000 line 136): a left-to-right scan that deletes every occurrence
of the seven-character pattern and resumes after the deleted match,
exactly as a global regex replace of a literal pattern does. -/
def removeJsonTicks : List Char → List Char
  | [] => []
  | [c1] => [c1]
  | [c1, c2] => [c1, c2]
  | [c1, c2, c3] => [c1, c2, c3]
  | [c1, c2, c3, c4] => [c1, c2, c3, c4]
  | [c1, c2, c3, c4, c5] => [c1, c2, c3, c4, c5]
  | [c1, c2, c3, c4, c5, c6] => [c1, c2, c3, c4, c5, c6]
  | c1 :: c2 :: c3 :: c4 :: c5 :: c6 :: c7 :: rest =>
    if c1 = tick ∧ c2 = tick ∧ c3 = tick ∧ c4 = 'j' ∧ c5 = 's' ∧ c6 = 'o' ∧ c7 = 'n' then
      removeJsonTicks rest
    else
      c1 :: removeJsonTicks (c2 :: c3 :: c4 :: c5 :: c6 :: c7 :: rest)

/-- Embedding of `.replace(/<tick><tick><tick>/g, '')` (part_000
line 136): deletes every occurrence of three consecutive backticks,
scanning left to right. -/
def removeTicks : List Char → List Char
  | [] => []
  | [c1] => [c1]
  | [c1, c2] => [c1, c2]
  | c1 :: c2 :: c3 :: rest =>
    if c1 = tick ∧ c2 = tick ∧ c3 = tick then
      removeTicks rest
    else
      c1 :: removeTicks (c2 :: c3 :: rest)

/-- Does the character list contain three consecutive backticks? -/
def hasTriple : List Char → Bool
  | [] => false
  | [_] => false
  | [_, _] => false
  | c1 :: c2 :: c3 :: rest =>
    if c1 = tick ∧ c2 = tick ∧ c3 = tick then true
    else hasTriple (c2 :: c3 :: rest)

/-- The whole cleanup of the model reply, part_000 line 136:
`aiContent.replace(/<3 ticks>json/g, '').replace(/<3 ticks>/g, '').trim()`. -/
def cleanContent (s : String) : String :=
  String.mk (trimList (removeTicks (removeJsonTicks s.data)))

/-- Both-ends whitespace trim on strings (used to speak about the text
standing between the code fences of a reply). -/
def strTrim (s : String) : String :=
  String.mk (trimList s.data)

/-! ## The JSON value model and a model of `JSON.parse`

The handler feeds the cleaned reply to the JavaScript built-in
`JSON.parse` (part_000 line 140).  `JsonVal` is the value tree;
number literals are kept as their source text (the handler never
computes with them, it only passes the parsed value through).
`jsonParse` below implements the JSON grammar accepted by
`JSON.parse`: optionally whitespace-wrapped single value, objects,
arrays, strings with the standard escapes (lone-surrogate `\u`
escapes are outside the modelled range), numbers, `true`, `false`,
`null`, and rejection of any trailing garbage. -/

/-- JSON values as produced by parsing. -/
inductive JsonVal where
  | null
  | bool (b : Bool)
  | num (lit : String)
  | str (s : String)
  | arr (items : List JsonVal)
  | obj (fields : List (String × JsonVal))

/-- JSON insignificant whitespace (ECMA-404: space, tab, LF, CR). -/
def isJsonWs (c : Char) : Bool :=
  c = ' ' || c = '\t' || c = '\n' || c = '\r'

/-- Drop leading JSON whitespace. -/
def skipWs (s : List Char) : List Char := s.dropWhile isJsonWs

/-- Hexadecimal digit value. -/
def hexVal (c : Char) : Option Nat :=
  if '0' ≤ c ∧ c ≤ '9' then some (c.toNat - '0'.toNat)
  else if 'a' ≤ c ∧ c ≤ 'f' then some (c.toNat - 'a'.toNat + 10)
  else if 'A' ≤ c ∧ c ≤ 'F' then some (c.toNat - 'A'.toNat + 10)
  else none

/-- String-literal body scanner: reads characters after the opening
quote up to the closing quote, decoding the JSON escapes; returns the
decoded characters and the input following the closing quote. -/
def takeStrBody (acc : List Char) : List Char → Option (List Char × List Char)
  | [] => none
  | '\x22' :: rest => some (acc.reverse, rest)
  | '\\' :: esc =>
    match esc with
    | '\x22' :: r => takeStrBody ('\x22' :: acc) r
    | '\\' :: r => takeStrBody ('\\' :: acc) r
    | '/' :: r => takeStrBody ('/' :: acc) r
    | 'b' :: r => takeStrBody ('\x08' :: acc) r
    | 'f' :: r => takeStrBody ('\x0c' :: acc) r
    | 'n' :: r => takeStrBody ('\n' :: acc) r
    | 'r' :: r => takeStrBody ('\r' :: acc) r
    | 't' :: r => takeStrBody ('\t' :: acc) r
    | 'u' :: h1 :: h2 :: h3 :: h4 :: r =>
      match hexVal h1, hexVal h2, hexVal h3, hexVal h4 with
      | some a, some b, some c, some d =>
        let n := ((a * 16 + b) * 16 + c) * 16 + d
        if 55296 ≤ n ∧ n ≤ 57343 then none
        else takeStrBody (Char.ofNat n :: acc) r
      | _, _, _, _ => none
    | _ => none
  | c :: rest =>
    if c.toNat < 32 then none else takeStrBody (c :: acc) rest

/-- Scan the digit run of a number literal. -/
def digitSpan (s : List Char) : List Char × List Char :=
  (s.takeWhile Char.isDigit, s.dropWhile Char.isDigit)

/-- Optional fraction part `.digits` of a number literal. -/
def takeFracPart (s : List Char) : Option (List Char × List Char) :=
  match s with
  | '.' :: r =>
    let (ds, r2) := digitSpan r
    if ds = [] then none else some ('.' :: ds, r2)
  | _ => some ([], s)

/-- Optional exponent part `e[+-]digits` of a number literal. -/
def takeExpPart (s : List Char) : Option (List Char × List Char) :=
  match s with
  | c :: r =>
    if c = 'e' ∨ c = 'E' then
      let (sgn, r1) :=
        match r with
        | '+' :: r2 => (['+'], r2)
        | '-' :: r2 => (['-'], r2)
        | _ => (([] : List Char), r)
      let (ds, r3) := digitSpan r1
      if ds = [] then none else some (c :: (sgn ++ ds), r3)
    else some ([], s)
  | [] => some ([], [])

/-- Number literal per the JSON grammar: `-? (0 | [1-9][0-9]*) frac? exp?`;
returns the literal characters and the rest of the input. -/
def takeNumLit (s : List Char) : Option (List Char × List Char) :=
  let (neg, s1) :=
    match s with
    | '-' :: r => ((['-'] : List Char), r)
    | _ => (([] : List Char), s)
  match s1 with
  | [] => none
  | c :: r1 =>
    let intRest : Option (List Char × List Char) :=
      if c = '0' then some (['0'], r1)
      else if c.isDigit then some (digitSpan (c :: r1))
      else none
    match intRest with
    | none => none
    | some (ipart, r2) =>
      match takeFracPart r2 with
      | none => none
      | some (fpart, r3) =>
        match takeExpPart r3 with
        | none => none
        | some (epart, r4) => some (neg ++ ipart ++ fpart ++ epart, r4)

/-- What a recursive descent step is asked to read. -/
inductive JMode where
  | value
  | arrItems (first : Bool)
  | objFields (first : Bool)

/-- What a recursive descent step produced. -/
inductive JOut where
  | one (j : JsonVal)
  | many (js : List JsonVal)
  | flds (fs : List (String × JsonVal))

/-- Fuel-indexed recursive descent over the JSON grammar. -/
def parseStep : Nat → JMode → List Char → Option (JOut × List Char)
  | 0, _, _ => none
  | fuel + 1, .value, s0 =>
    let s := skipWs s0
    match s with
    | '\x7b' :: r =>
      match parseStep fuel (.objFields true) r with
      | some (.flds fs, r2) => some (.one (JsonVal.obj fs), r2)
      | _ => none
    | '[' :: r =>
      match parseStep fuel (.arrItems true) r with
      | some (.many js, r2) => some (.one (JsonVal.arr js), r2)
      | _ => none
    | '\x22' :: r =>
      match takeStrBody [] r with
      | some (cs, r2) => some (.one (JsonVal.str (String.mk cs)), r2)
      | none => none
    | 't' :: 'r' :: 'u' :: 'e' :: r => some (.one (JsonVal.bool true), r)
    | 'f' :: 'a' :: 'l' :: 's' :: 'e' :: r => some (.one (JsonVal.bool false), r)
    | 'n' :: 'u' :: 'l' :: 'l' :: r => some (.one JsonVal.null, r)
    | _ =>
      match takeNumLit s with
      | some (lit, r2) => some (.one (JsonVal.num (String.mk lit)), r2)
      | none => none
  | fuel + 1, .arrItems first, s0 =>
    let s := skipWs s0
    match s, first with
    | ']' :: r, true => some (.many [], r)
    | _, _ =>
      match parseStep fuel .value s with
      | some (.one v, r) =>
        match skipWs r with
        | ']' :: r2 => some (.many [v], r2)
        | ',' :: r2 =>
          match parseStep fuel (.arrItems false) r2 with
          | some (.many js, r3) => some (.many (v :: js), r3)
          | _ => none
        | _ => none
      | _ => none
  | fuel + 1, .objFields first, s0 =>
    let s := skipWs s0
    match s, first with
    | '\x7d' :: r, true => some (.flds [], r)
    | _, _ =>
      match s with
      | '\x22' :: r =>
        match takeStrBody [] r with
        | some (kcs, r1) =>
          match skipWs r1 with
          | ':' :: r2 =>
            match parseStep fuel .value r2 with
            | some (.one v, r3) =>
              match skipWs r3 with
              | '\x7d' :: r4 => some (.flds [(String.mk kcs, v)], r4)
              | ',' :: r4 =>
                match parseStep fuel (.objFields false) r4 with
                | some (.flds fs, r5) => some (.flds ((String.mk kcs, v) :: fs), r5)
                | _ => none
              | _ => none
            | _ => none
          | _ => none
        | none => none
      | _ => none

/-- Model of the JavaScript built-in `JSON.parse` as used at part_000
line 140: parses one JSON value, allowing surrounding whitespace and
rejecting trailing garbage and malformed input. -/
def jsonParse (s : String) : Option JsonVal :=
  match parseStep (2 * s.length + 8) .value s.data with
  | some (.one j, rest) => if skipWs rest = [] then some j else none
  | _ => none

/-! ## The upload stage

An uploaded file is kept as the metadata the validation logic reads:
its declared MIME type and its byte size.  `processUpload` models the
multer middleware `upload.array('images', 5)` with the configuration of
part_000 lines 25-35: files of one multipart request are handled in
arrival order; for each file multer first checks the per-field count
limit (5, error code LIMIT_UNEXPECTED_FILE carrying the message
"Unexpected field"), then runs the repository's `fileFilter`
(part_000 lines 28-34: accept exactly when the declared MIME type
starts with "image/", otherwise fail the request with the plain
`Error('Only image files are allowed!')`), then enforces the
`fileSize` limit of 10 * 1024 * 1024 bytes (error code LIMIT_FILE_SIZE
carrying the message "File too large").  The first failing check
aborts the request. -/

/-- Metadata of one uploaded multipart file. -/
structure UploadedFile where
  mimetype : String
  size : Nat

/-- Per-file size cap from the multer `limits` (part_000 line 27). -/
def fileSizeLimit : Nat := 10 * 1024 * 1024

/-- Maximum file count of `upload.array('images', 5)` (part_000 line 47). -/
def maxImageCount : Nat := 5

/-- The repository's `fileFilter` acceptance test (part_000 line 29). -/
def imageMime (m : String) : Bool := listStartsWith "image/".data m.data

/-- Result of the multer middleware: the file list (as `req.files`), a
`MulterError` (count or size limit), or the plain `fileFilter` error. -/
inductive UploadOutcome where
  | ok (files : List UploadedFile)
  | limitError (message : String)
  | filterError (message : String)

/-- Sequential multer processing; `seen` counts the files already
accepted for the `images` field. -/
def processUpload : List UploadedFile → Nat → UploadOutcome
  | [], _ => .ok []
  | f :: rest, seen =>
    if maxImageCount ≤ seen then .limitError "Unexpected field"
    else if imageMime f.mimetype = false then .filterError "Only image files are allowed!"
    else if fileSizeLimit < f.size then .limitError "File too large"
    else
      match processUpload rest (seen + 1) with
      | .ok fs => .ok (f :: fs)
      | e => e

/-! ## The analyze handler -/

/-- The outcome of the awaited external model call
(`client.chat.completions.create`, part_000 line 117): either the
textual reply `completion.choices[0].message.content`, or a thrown
error with its `message` — covering both a failing model call and any
unexpected exception raised inside the `try` block, which the handler's
`catch` treats alike (part_000 lines 152-155). -/
inductive ModelOutcome where
  | reply (content : String)
  | failure (message : String)

/-- One JSON body sent by the relay, with its HTTP status.  `message`,
`data` and `raw` are `none` exactly when the JavaScript object literal
sent through `res.json` omits the field. -/
structure ApiResponse where
  status : Nat
  success : Bool
  message : Option String
  data : Option JsonVal
  raw : Option String

/-- The handler body after the multer stage (part_000 lines 55-156):
the minimum-count check, then the single model call, the fence cleanup,
the `JSON.parse` attempt and the envelope construction.  The second
component counts how many external model calls the request issued. -/
def analyzeCore (files : List UploadedFile) (outcome : ModelOutcome) :
    ApiResponse × Nat :=
  if files.length < 2 then
    ({ status := 400, success := false, message := some "请至少上传 2 张图片",
       data := none, raw := none }, 0)
  else
    match outcome with
    | .failure msg =>
      ({ status := 500, success := false, message := some ("服务器内部错误: " ++ msg),
         data := none, raw := none }, 1)
    | .reply content =>
      let cleaned := cleanContent content
      match jsonParse cleaned with
      | some parsed =>
        ({ status := 200, success := true, message := none,
           data := some parsed, raw := none }, 1)
      | none =>
        ({ status := 500, success := false, message := some "AI 生成格式解析失败",
           data := none, raw := some cleaned }, 1)

/-- The whole `POST /api/analyze` route (part_000 lines 43-156): the
multer stage with its error mapping (`MulterError` answered as 400 with
the prefixed message, any other upload error answered as 400 with the
error's own message), then the handler body. -/
def postAnalyze (files : List UploadedFile) (outcome : ModelOutcome) :
    ApiResponse × Nat :=
  match processUpload files 0 with
  | .limitError m =>
    ({ status := 400, success := false, message := some ("文件上传错误: " ++ m),
       data := none, raw := none }, 0)
  | .filterError m =>
    ({ status := 400, success := false, message := some m,
       data := none, raw := none }, 0)
  | .ok fs => analyzeCore fs outcome

/-! ## The upload client

Only the state touched by claim C8 is modelled: the working file list,
the analyzing flag and the result slot of `App.tsx`, together with the
synchronous head of `handleAnalyze` (App.tsx lines 85-92): when the
working list holds fewer than 2 items the handler shows a toast and
returns before building the form data or issuing the axios request;
otherwise it enters the analyzing state and issues the one request. -/

/-- One entry of the client's working list. -/
structure ClientItem where
  name : String

/-- The client state used by `handleAnalyze`. -/
structure ClientState where
  fileList : List ClientItem
  analyzing : Bool
  result : Option JsonVal

/-- Externally visible effects of one `handleAnalyze` activation. -/
inductive ClientEffect where
  | toastFail (message : String)
  | postRequest
deriving DecidableEq

/-- The decision made by `handleAnalyze` before anything asynchronous
happens (App.tsx lines 85-92). -/
def handleAnalyze (s : ClientState) : ClientState × List ClientEffect :=
  if s.fileList.length < 2 then
    (s, [ClientEffect.toastFail "为了准确分析，请至少上传 2 张截图"])
  else
    ({ s with analyzing := true, result := none }, [ClientEffect.postRequest])

/-! ## Helper lemmas about the upload stage -/

/-- A batch that satisfies every upload check passes the multer stage
unchanged. -/
theorem processUpload_ok : ∀ (files : List UploadedFile) (n : Nat),
    n + files.length ≤ maxImageCount →
    (∀ f ∈ files, imageMime f.mimetype = true) →
    (∀ f ∈ files, f.size ≤ fileSizeLimit) →
    processUpload files n = .ok files
  | [], _, _, _, _ => rfl
  | f :: rest, n, hlen, himg, hsize => by
    have h1 : ¬ maxImageCount ≤ n := by
      simp only [List.length_cons] at hlen; omega
    have h2 : ¬ imageMime f.mimetype = false := by
      simp [himg f (List.mem_cons_self f rest)]
    have h3 : ¬ fileSizeLimit < f.size := by
      have := hsize f (List.mem_cons_self f rest)
      omega
    have ih := processUpload_ok rest (n + 1)
      (by simp only [List.length_cons] at hlen; omega)
      (fun g hg => himg g (List.mem_cons_of_mem f hg))
      (fun g hg => hsize g (List.mem_cons_of_mem f hg))
    simp only [processUpload, if_neg h1, if_neg h2, if_neg h3, ih]

/-- When every earlier file passes all checks and the count limit is
not yet reached, a non-image file makes the multer stage fail with the
repository's `fileFilter` error. -/
theorem processUpload_filter_first :
    ∀ (pre : List UploadedFile) (bad : UploadedFile) (rest : List UploadedFile) (n : Nat),
    n + pre.length < maxImageCount →
    (∀ f ∈ pre, imageMime f.mimetype = true ∧ f.size ≤ fileSizeLimit) →
    imageMime bad.mimetype = false →
    processUpload (pre ++ bad :: rest) n = .filterError "Only image files are allowed!"
  | [], bad, rest, n, hlen, _, hbad => by
    have h1 : ¬ maxImageCount ≤ n := by simp at hlen; omega
    rw [List.nil_append]
    simp only [processUpload, if_neg h1]
    rw [if_pos hbad]
  | f :: pre, bad, rest, n, hlen, hpre, hbad => by
    have h1 : ¬ maxImageCount ≤ n := by
      simp only [List.length_cons] at hlen; omega
    have h2 : ¬ imageMime f.mimetype = false := by
      simp [(hpre f (List.mem_cons_self f pre)).1]
    have h3 : ¬ fileSizeLimit < f.size := by
      have := (hpre f (List.mem_cons_self f pre)).2
      omega
    have ih := processUpload_filter_first pre bad rest (n + 1)
      (by simp only [List.length_cons] at hlen; omega)
      (fun g hg => hpre g (List.mem_cons_of_mem f hg)) hbad
    rw [List.cons_append]
    simp only [processUpload, if_neg h1, if_neg h2, if_neg h3]
    rw [ih]

/-- When every earlier file passes all checks and the count limit is
not yet reached, an oversized image file makes the multer stage fail
with the `LIMIT_FILE_SIZE` error. -/
theorem processUpload_size_first :
    ∀ (pre : List UploadedFile) (big : UploadedFile) (rest : List UploadedFile) (n : Nat),
    n + pre.length < maxImageCount →
    (∀ f ∈ pre, imageMime f.mimetype = true ∧ f.size ≤ fileSizeLimit) →
    imageMime big.mimetype = true →
    fileSizeLimit < big.size →
    processUpload (pre ++ big :: rest) n = .limitError "File too large"
  | [], big, rest, n, hlen, _, hbig, hsz => by
    have h1 : ¬ maxImageCount ≤ n := by simp at hlen; omega
    have h2 : ¬ imageMime big.mimetype = false := by simp [hbig]
    simp only [List.nil_append, processUpload, if_neg h1, if_neg h2, if_pos hsz]
  | f :: pre, big, rest, n, hlen, hpre, hbig, hsz => by
    have h1 : ¬ maxImageCount ≤ n := by
      simp only [List.length_cons] at hlen; omega
    have h2 : ¬ imageMime f.mimetype = false := by
      simp [(hpre f (List.mem_cons_self f pre)).1]
    have h3 : ¬ fileSizeLimit < f.size := by
      have := (hpre f (List.mem_cons_self f pre)).2
      omega
    have ih := processUpload_size_first pre big rest (n + 1)
      (by simp only [List.length_cons] at hlen; omega)
      (fun g hg => hpre g (List.mem_cons_of_mem f hg)) hbig hsz
    rw [List.cons_append]
    simp only [processUpload, if_neg h1, if_neg h2, if_neg h3]
    rw [ih]

/-- A batch larger than the per-field count limit never passes the multer
stage: it is answered with one of the three upload-layer errors. -/
theorem processUpload_overflow : ∀ (files : List UploadedFile) (n : Nat),
    n ≤ maxImageCount → maxImageCount < n + files.length →
    processUpload files n = .limitError "Unexpected field" ∨
    processUpload files n = .limitError "File too large" ∨
    processUpload files n = .filterError "Only image files are allowed!"
  | [], n, hle, hlt => by simp only [List.length_nil] at hlt; omega
  | f :: rest, n, hle, hlt => by
    by_cases h1 : maxImageCount ≤ n
    · left; simp only [processUpload, if_pos h1]
    · by_cases h2 : imageMime f.mimetype = false
      · right; right; simp only [processUpload, if_neg h1, if_pos h2]
      · by_cases h3 : fileSizeLimit < f.size
        · right; left; simp only [processUpload, if_neg h1, if_neg h2, if_pos h3]
        · have ih := processUpload_overflow rest (n + 1)
            (by omega) (by simp only [List.length_cons] at hlt; omega)
          simp only [processUpload, if_neg h1, if_neg h2, if_neg h3]
          rcases ih with h | h | h
          · left; rw [h]
          · right; left; rw [h]
          · right; right; rw [h]

/-! ## Helper lemmas about the fence cleanup -/

/-- The three-backtick fence. -/
def tks : List Char := [tick, tick, tick]

/-- A list starting with three backticks has a triple. -/
theorem hasTriple_head (c1 c2 c3 : Char) (r : List Char)
    (h : hasTriple (c1 :: c2 :: c3 :: r) = false) :
    ¬ (c1 = tick ∧ c2 = tick ∧ c3 = tick) := by
  intro hc
  simp only [hasTriple] at h
  rw [if_pos hc] at h
  exact Bool.noConfusion h

/-- `hasTriple` is monotone along the scan. -/
theorem hasTriple_tail (c1 c2 c3 : Char) (r : List Char)
    (h : hasTriple (c1 :: c2 :: c3 :: r) = false) :
    hasTriple (c2 :: c3 :: r) = false := by
  have hh := hasTriple_head c1 c2 c3 r h
  simp only [hasTriple] at h
  rw [if_neg hh] at h
  exact h

/-- The `json` fence pattern at the head of the input is deleted. -/
theorem removeJsonTicks_fence (r : List Char) :
    removeJsonTicks (tick :: tick :: tick :: 'j' :: 's' :: 'o' :: 'n' :: r) =
    removeJsonTicks r := by
  simp [removeJsonTicks]

/-- A scan step that does not start with three backticks keeps its head
character. -/
theorem removeJsonTicks_cons7 (a b c d e f g : Char) (r : List Char)
    (h : ¬ (a = tick ∧ b = tick ∧ c = tick)) :
    removeJsonTicks (a :: b :: c :: d :: e :: f :: g :: r) =
    a :: removeJsonTicks (b :: c :: d :: e :: f :: g :: r) := by
  simp only [removeJsonTicks]
  rw [if_neg (fun hh => h ⟨hh.1, hh.2.1, hh.2.2.1⟩)]

/-- Removing the `json`-tagged fence pattern leaves a triple-free text
followed by a closing fence unchanged. -/
theorem removeJsonTicks_keep : ∀ (s : List Char), hasTriple s = false →
    removeJsonTicks (s ++ tks) = s ++ tks
  | [], _ => rfl
  | [c1], _ => rfl
  | [c1, c2], _ => rfl
  | [c1, c2, c3], _ => rfl
  | [c1, c2, c3, c4], h => by
    show removeJsonTicks (c1 :: c2 :: c3 :: c4 :: tick :: tick :: tick :: []) = _
    rw [removeJsonTicks_cons7 c1 c2 c3 c4 tick tick tick []
      (hasTriple_head c1 c2 c3 _ h)]
    rfl
  | [c1, c2, c3, c4, c5], h => by
    show removeJsonTicks (c1 :: c2 :: c3 :: c4 :: c5 :: tick :: tick :: tick :: []) = _
    rw [removeJsonTicks_cons7 c1 c2 c3 c4 c5 tick tick [tick]
      (hasTriple_head c1 c2 c3 _ h)]
    rw [removeJsonTicks_cons7 c2 c3 c4 c5 tick tick tick []
      (hasTriple_head c2 c3 c4 _ (hasTriple_tail c1 c2 c3 _ h))]
    rfl
  | [c1, c2, c3, c4, c5, c6], h => by
    show removeJsonTicks
      (c1 :: c2 :: c3 :: c4 :: c5 :: c6 :: tick :: tick :: tick :: []) = _
    rw [removeJsonTicks_cons7 c1 c2 c3 c4 c5 c6 tick [tick, tick]
      (hasTriple_head c1 c2 c3 _ h)]
    rw [removeJsonTicks_cons7 c2 c3 c4 c5 c6 tick tick [tick]
      (hasTriple_head c2 c3 c4 _ (hasTriple_tail c1 c2 c3 _ h))]
    rw [removeJsonTicks_cons7 c3 c4 c5 c6 tick tick tick []
      (hasTriple_head c3 c4 c5 _
        (hasTriple_tail c2 c3 c4 _ (hasTriple_tail c1 c2 c3 _ h)))]
    rfl
  | c1 :: c2 :: c3 :: c4 :: c5 :: c6 :: c7 :: rest, h => by
    have ih := removeJsonTicks_keep (c2 :: c3 :: c4 :: c5 :: c6 :: c7 :: rest)
      (hasTriple_tail c1 c2 c3 _ h)
    show removeJsonTicks
      (c1 :: c2 :: c3 :: c4 :: c5 :: c6 :: c7 :: (rest ++ tks)) = _
    rw [removeJsonTicks_cons7 c1 c2 c3 c4 c5 c6 c7 (rest ++ tks)
      (hasTriple_head c1 c2 c3 _ h)]
    rw [show (c2 :: c3 :: c4 :: c5 :: c6 :: c7 :: (rest ++ tks) : List Char)
      = (c2 :: c3 :: c4 :: c5 :: c6 :: c7 :: rest) ++ tks from rfl]
    rw [ih]
    rfl

/-- A scan step of the plain-fence removal that does not start with
three backticks keeps its head character. -/
theorem removeTicks_cons3 (a b c : Char) (r : List Char)
    (h : ¬ (a = tick ∧ b = tick ∧ c = tick)) :
    removeTicks (a :: b :: c :: r) = a :: removeTicks (b :: c :: r) := by
  simp only [removeTicks]
  rw [if_neg h]

/-- Removing the plain fence pattern from a triple-free text followed by
a closing fence deletes exactly that closing fence. -/
theorem removeTicks_drop : ∀ (s : List Char), hasTriple s = false →
    removeTicks (s ++ tks) = s
  | [], _ => rfl
  | [c1], _ => by
    by_cases hc : c1 = tick
    · subst hc; rfl
    · show removeTicks (c1 :: tick :: tick :: (tick :: [])) = [c1]
      rw [removeTicks_cons3 c1 tick tick [tick] (fun hh => hc hh.1)]
      rfl
  | [c1, c2], h => by
    by_cases hb : c1 = tick ∧ c2 = tick
    · obtain ⟨e1, e2⟩ := hb; subst e1; subst e2; rfl
    · show removeTicks (c1 :: c2 :: tick :: (tick :: tick :: [])) = [c1, c2]
      rw [removeTicks_cons3 c1 c2 tick [tick, tick] (fun hh => hb ⟨hh.1, hh.2.1⟩)]
      rw [show (c2 :: tick :: tick :: tick :: [] : List Char) = [c2] ++ tks from rfl]
      rw [removeTicks_drop [c2] rfl]
  | c1 :: c2 :: c3 :: rest, h => by
    have ih := removeTicks_drop (c2 :: c3 :: rest) (hasTriple_tail c1 c2 c3 _ h)
    show removeTicks (c1 :: c2 :: c3 :: (rest ++ tks)) = _
    rw [removeTicks_cons3 c1 c2 c3 (rest ++ tks) (hasTriple_head c1 c2 c3 _ h)]
    rw [show (c2 :: c3 :: (rest ++ tks) : List Char)
      = (c2 :: c3 :: rest) ++ tks from rfl]
    rw [ih]

/-- The whole cleanup applied to a reply that wraps a triple-free text
in a `json`-tagged code fence yields exactly the trimmed inner text. -/
theorem cleanContent_fenced (inner : String) (h : hasTriple inner.data = false) :
    cleanContent ("```json" ++ inner ++ "```") = strTrim inner := by
  unfold cleanContent strTrim
  have hdata : ("```json" ++ inner ++ "```").data
      = tick :: tick :: tick :: 'j' :: 's' :: 'o' :: 'n' :: (inner.data ++ tks) := by
    rw [String.data_append, String.data_append]
    rw [show "```json".data = tick :: tick :: tick :: 'j' :: 's' :: 'o' :: 'n' :: [] from rfl]
    rw [show "```".data = tks from rfl]
    simp [List.append_assoc]
  rw [hdata]
  rw [removeJsonTicks_fence]
  rw [removeJsonTicks_keep inner.data h]
  rw [removeTicks_drop inner.data h]

/-! ## Shared facts about the analyze route -/

/-- A valid batch whose model reply parses after cleanup is answered 200
with the parsed value, after exactly one model call. -/
theorem postAnalyze_success_reply (files : List UploadedFile) (content : String)
    (parsed : JsonVal)
    (hmin : 2 ≤ files.length) (hmax : files.length ≤ maxImageCount)
    (himg : ∀ f ∈ files, imageMime f.mimetype = true)
    (hsize : ∀ f ∈ files, f.size ≤ fileSizeLimit)
    (hparse : jsonParse (cleanContent content) = some parsed) :
    postAnalyze files (.reply content) =
      ({ status := 200, success := true, message := none,
         data := some parsed, raw := none }, 1) := by
  unfold postAnalyze
  rw [processUpload_ok files 0 (by omega) himg hsize]
  show analyzeCore files (.reply content) = _
  unfold analyzeCore
  rw [if_neg (by omega)]
  simp only [hparse]

/-! ## The claims -/

/-- C1: for every batch of 2-5 uploaded files whose declared MIME types
start with "image/" and whose sizes are under the per-file cap, when the
model's textual reply is well-formed JSON after cleaning, the analyze
route issues exactly one model call and responds 200 with success true
and `data` the parsed object, passed through unchanged with no further
shape validation. -/
theorem c1_valid_batch_success (files : List UploadedFile) (content : String)
    (parsed : JsonVal)
    (hmin : 2 ≤ files.length) (hmax : files.length ≤ 5)
    (himg : ∀ f ∈ files, imageMime f.mimetype = true)
    (hsize : ∀ f ∈ files, f.size < fileSizeLimit)
    (hparse : jsonParse (cleanContent content) = some parsed) :
    postAnalyze files (.reply content) =
      ({ status := 200, success := true, message := none,
         data := some parsed, raw := none }, 1) :=
  postAnalyze_success_reply files content parsed hmin hmax himg
    (fun f hf => Nat.le_of_lt (hsize f hf)) hparse

/-- Witness for C1 at a concrete input; the parsed object does not match
the `AnalysisResult` shape, showing the pass-through is unvalidated. -/
theorem c1_witness :
    postAnalyze [{ mimetype := "image/png", size := 1000 },
                 { mimetype := "image/jpeg", size := 2000 }]
      (.reply "\x7b\x22foo\x22:1\x7d") =
      ({ status := 200, success := true, message := none,
         data := some (JsonVal.obj [("foo", JsonVal.num "1")]), raw := none }, 1) :=
  c1_valid_batch_success _ _ _ (by decide) (by decide) (by decide) (by decide) rfl

/-- C2 counterexample: a request carrying a single oversized image file
carries fewer than 2 image files, yet the relay's message is the size
error of the upload layer, not the minimum-2-images message. -/
theorem c2_counterexample :
    postAnalyze [{ mimetype := "image/png", size := 10485761 }] (.reply "x") =
      ({ status := 400, success := false,
         message := some "文件上传错误: File too large",
         data := none, raw := none }, 0) ∧
    ("文件上传错误: File too large" : String) ≠ "请至少上传 2 张图片" :=
  ⟨rfl, by decide⟩

/-- C2 (amended): for every request whose files all pass the upload
filters (each an image within the size cap) and number fewer than 2 —
including zero files or a missing field — the relay responds 400 with
success false and the localized minimum-2-images message, and the model
is never invoked. -/
theorem c2_min_images_amended (files : List UploadedFile) (outcome : ModelOutcome)
    (hlen : files.length < 2)
    (hok : ∀ f ∈ files, imageMime f.mimetype = true ∧ f.size ≤ fileSizeLimit) :
    postAnalyze files outcome =
      ({ status := 400, success := false, message := some "请至少上传 2 张图片",
         data := none, raw := none }, 0) := by
  unfold postAnalyze
  rw [processUpload_ok files 0 (by show 0 + files.length ≤ 5; omega)
    (fun f hf => (hok f hf).1) (fun f hf => (hok f hf).2)]
  show analyzeCore files outcome = _
  unfold analyzeCore
  rw [if_pos hlen]

/-- Witness for the amended C2: one valid image. -/
theorem c2_witness :
    postAnalyze [{ mimetype := "image/png", size := 100 }] (.reply "x") =
      ({ status := 400, success := false, message := some "请至少上传 2 张图片",
         data := none, raw := none }, 0) :=
  c2_min_images_amended _ _ (by decide) (by decide)

/-- C4: for every model reply whose text is not valid JSON after
fence-stripping and trimming, the relay responds 500 with success false,
the parse-failure message, and `raw` exactly the cleaned text, with no
`data` field. -/
theorem c4_parse_failure (files : List UploadedFile) (content : String)
    (hmin : 2 ≤ files.length) (hmax : files.length ≤ 5)
    (himg : ∀ f ∈ files, imageMime f.mimetype = true)
    (hsize : ∀ f ∈ files, f.size < fileSizeLimit)
    (hparse : jsonParse (cleanContent content) = none) :
    postAnalyze files (.reply content) =
      ({ status := 500, success := false, message := some "AI 生成格式解析失败",
         data := none, raw := some (cleanContent content) }, 1) := by
  unfold postAnalyze
  rw [processUpload_ok files 0 (by show 0 + files.length ≤ 5; omega) himg
    (fun f hf => Nat.le_of_lt (hsize f hf))]
  show analyzeCore files (.reply content) = _
  unfold analyzeCore
  rw [if_neg (by omega)]
  simp only [hparse]

/-- Witness for C4: a reply that is not JSON. -/
theorem c4_witness :
    postAnalyze [{ mimetype := "image/png", size := 1000 },
                 { mimetype := "image/jpeg", size := 2000 }]
      (.reply "hello ```world```") =
      ({ status := 500, success := false, message := some "AI 生成格式解析失败",
         data := none, raw := some "hello world" }, 1) :=
  c4_parse_failure _ _ (by decide) (by decide) (by decide) (by decide) rfl

/-- C7: for every failure of the external model call and every
unexpected exception inside the handler after validation, the relay
responds 500 with success false and the fixed internal-server-error
prefix concatenated with the failure's detail text. -/
theorem c7_model_failure (files : List UploadedFile) (err : String)
    (hmin : 2 ≤ files.length) (hmax : files.length ≤ 5)
    (himg : ∀ f ∈ files, imageMime f.mimetype = true)
    (hsize : ∀ f ∈ files, f.size ≤ fileSizeLimit) :
    postAnalyze files (.failure err) =
      ({ status := 500, success := false,
         message := some ("服务器内部错误: " ++ err),
         data := none, raw := none }, 1) := by
  unfold postAnalyze
  rw [processUpload_ok files 0 (by show 0 + files.length ≤ 5; omega) himg hsize]
  show analyzeCore files (.failure err) = _
  unfold analyzeCore
  rw [if_neg (by omega)]

/-- Witness for C7. -/
theorem c7_witness :
    postAnalyze [{ mimetype := "image/png", size := 1000 },
                 { mimetype := "image/jpeg", size := 2000 }]
      (.failure "connect ECONNREFUSED") =
      ({ status := 500, success := false,
         message := some "服务器内部错误: connect ECONNREFUSED",
         data := none, raw := none }, 1) :=
  c7_model_failure _ _ (by decide) (by decide) (by decide) (by decide)

/-- C3 counterexample: a reply that is well-formed JSON wrapped in
```json fences, whose inner text contains three consecutive backticks in
a string literal.  The cleanup removes the interior backticks as well
(the replace is global, not anchored to the ends), so the returned value
differs from the JSON value standing inside the fences. -/
theorem c3_counterexample :
    jsonParse "\x7b\x22a\x22:\x22x```y\x22\x7d" =
      some (JsonVal.obj [("a", JsonVal.str "x```y")]) ∧
    (postAnalyze [{ mimetype := "image/png", size := 1000 },
                  { mimetype := "image/jpeg", size := 2000 }]
      (.reply "```json\n\x7b\x22a\x22:\x22x```y\x22\x7d\n```")).1.data =
      some (JsonVal.obj [("a", JsonVal.str "xy")]) ∧
    JsonVal.obj [("a", JsonVal.str "xy")] ≠ JsonVal.obj [("a", JsonVal.str "x```y")] := by
  refine ⟨rfl, rfl, ?_⟩
  simp

/-- C3 (amended): the cleanup removes every occurrence of the fence
markers anywhere in the reply, then trims; hence for a reply wrapping a
triple-backtick-free text in ```json fences, the relay strips exactly
the fences and, when the inner text (modulo surrounding whitespace)
parses as JSON, returns that parsed value unchanged under `data`. -/
theorem c3_fence_strip_amended (files : List UploadedFile) (inner : String)
    (parsed : JsonVal)
    (hmin : 2 ≤ files.length) (hmax : files.length ≤ 5)
    (himg : ∀ f ∈ files, imageMime f.mimetype = true)
    (hsize : ∀ f ∈ files, f.size < fileSizeLimit)
    (htriple : hasTriple inner.data = false)
    (hparse : jsonParse (strTrim inner) = some parsed) :
    cleanContent ("```json" ++ inner ++ "```") = strTrim inner ∧
    postAnalyze files (.reply ("```json" ++ inner ++ "```")) =
      ({ status := 200, success := true, message := none,
         data := some parsed, raw := none }, 1) := by
  have hc := cleanContent_fenced inner htriple
  exact ⟨hc, postAnalyze_success_reply files _ parsed hmin hmax himg
    (fun f hf => Nat.le_of_lt (hsize f hf)) (by rw [hc]; exact hparse)⟩

/-- Witness for the amended C3. -/
theorem c3_witness :
    cleanContent ("```json" ++ "\n\x7b\x22danger_index\x22:4.5\x7d\n" ++ "```") =
      strTrim "\n\x7b\x22danger_index\x22:4.5\x7d\n" ∧
    postAnalyze [{ mimetype := "image/png", size := 1000 },
                 { mimetype := "image/jpeg", size := 2000 }]
      (.reply ("```json" ++ "\n\x7b\x22danger_index\x22:4.5\x7d\n" ++ "```")) =
      ({ status := 200, success := true, message := none,
         data := some (JsonVal.obj [("danger_index", JsonVal.num "4.5")]),
         raw := none }, 1) :=
  c3_fence_strip_amended _ _ _ (by decide) (by decide) (by decide) (by decide)
    (by decide) rfl

/-- C5 counterexample: a batch containing a non-image file is not always
answered with the file-type message — an earlier oversized image wins,
because multer enforces its checks file by file in arrival order. -/
theorem c5_counterexample :
    postAnalyze [{ mimetype := "image/png", size := 10485761 },
                 { mimetype := "text/plain", size := 5 }] (.reply "x") =
      ({ status := 400, success := false,
         message := some "文件上传错误: File too large",
         data := none, raw := none }, 0) ∧
    ("文件上传错误: File too large" : String) ≠ "Only image files are allowed!" :=
  ⟨rfl, by decide⟩

/-- C5 (amended): for every request containing a file whose declared
content type does not start with "image/", where every file before the
first such file passes the upload checks and that file is among the
first 5, the relay responds 400 with the file-type violation message and
the model is never called. -/
theorem c5_non_image_amended (pre : List UploadedFile) (bad : UploadedFile)
    (rest : List UploadedFile) (outcome : ModelOutcome)
    (hpre : ∀ f ∈ pre, imageMime f.mimetype = true ∧ f.size ≤ fileSizeLimit)
    (hbad : imageMime bad.mimetype = false)
    (hpos : pre.length < 5) :
    postAnalyze (pre ++ bad :: rest) outcome =
      ({ status := 400, success := false,
         message := some "Only image files are allowed!",
         data := none, raw := none }, 0) := by
  unfold postAnalyze
  rw [processUpload_filter_first pre bad rest 0
    (by show 0 + pre.length < 5; omega) hpre hbad]

/-- Witness for the amended C5. -/
theorem c5_witness :
    postAnalyze [{ mimetype := "image/png", size := 500 },
                 { mimetype := "text/plain", size := 100 }] (.reply "x") =
      ({ status := 400, success := false,
         message := some "Only image files are allowed!",
         data := none, raw := none }, 0) :=
  c5_non_image_amended [{ mimetype := "image/png", size := 500 }]
    { mimetype := "text/plain", size := 100 } [] _ (by decide) (by decide) (by decide)

/-- C6 counterexample: a batch containing an oversized file is not
always answered with the size message — here the oversized file is a
non-image, and the per-file `fileFilter` check precedes the size check,
so the type message wins. -/
theorem c6_counterexample :
    postAnalyze [{ mimetype := "text/plain", size := 10485761 }] (.reply "x") =
      ({ status := 400, success := false,
         message := some "Only image files are allowed!",
         data := none, raw := none }, 0) ∧
    ("Only image files are allowed!" : String) ≠ "文件上传错误: File too large" :=
  ⟨rfl, by decide⟩

/-- C6 (amended): for every request containing an image file whose byte
size exceeds the 10 MB cap, where every file before it passes the upload
checks and it is among the first 5, the relay responds 400 with the
upload-size error message and the model is never called. -/
theorem c6_oversize_amended (pre : List UploadedFile) (big : UploadedFile)
    (rest : List UploadedFile) (outcome : ModelOutcome)
    (hpre : ∀ f ∈ pre, imageMime f.mimetype = true ∧ f.size ≤ fileSizeLimit)
    (hbig : imageMime big.mimetype = true)
    (hsz : fileSizeLimit < big.size)
    (hpos : pre.length < 5) :
    postAnalyze (pre ++ big :: rest) outcome =
      ({ status := 400, success := false,
         message := some "文件上传错误: File too large",
         data := none, raw := none }, 0) := by
  unfold postAnalyze
  rw [processUpload_size_first pre big rest 0
    (by show 0 + pre.length < 5; omega) hpre hbig hsz]
  rfl

/-- Witness for the amended C6. -/
theorem c6_witness :
    postAnalyze [{ mimetype := "image/png", size := 10485761 },
                 { mimetype := "image/png", size := 5 }] (.reply "x") =
      ({ status := 400, success := false,
         message := some "文件上传错误: File too large",
         data := none, raw := none }, 0) :=
  c6_oversize_amended [] { mimetype := "image/png", size := 10485761 }
    [{ mimetype := "image/png", size := 5 }] _ (by decide) (by decide) (by decide)
    (by decide)

/-- C8: whenever the client submit handler runs while the working list
holds fewer than 2 items, it shows the validation toast and returns
without issuing any network request, leaving the working list and the
result state unchanged. -/
theorem c8_client_min_images (s : ClientState) (h : s.fileList.length < 2) :
    handleAnalyze s = (s, [ClientEffect.toastFail "为了准确分析，请至少上传 2 张截图"]) ∧
    ClientEffect.postRequest ∉ (handleAnalyze s).2 ∧
    (handleAnalyze s).1.fileList = s.fileList ∧
    (handleAnalyze s).1.result = s.result := by
  have he : handleAnalyze s =
      (s, [ClientEffect.toastFail "为了准确分析，请至少上传 2 张截图"]) := by
    unfold handleAnalyze
    rw [if_pos h]
  refine ⟨he, ?_, ?_, ?_⟩
  · rw [he]
    show ClientEffect.postRequest ∉ [ClientEffect.toastFail "为了准确分析，请至少上传 2 张截图"]
    decide
  · rw [he]
  · rw [he]

/-- A one-item client state used to exercise the submit validation. -/
def oneItemState : ClientState :=
  { fileList := [{ name := "a.png" }], analyzing := false, result := none }

/-- Witness for C8. -/
theorem c8_witness :
    handleAnalyze oneItemState =
      (oneItemState, [ClientEffect.toastFail "为了准确分析，请至少上传 2 张截图"]) ∧
    ClientEffect.postRequest ∉ (handleAnalyze oneItemState).2 ∧
    (handleAnalyze oneItemState).1.fileList = oneItemState.fileList ∧
    (handleAnalyze oneItemState).1.result = oneItemState.result :=
  c8_client_min_images oneItemState (by decide)

/-- C9: every request carrying more than 5 files is answered 400 with
success false and one of the upload-layer error messages, and the model
is never invoked. -/
theorem c9_too_many_files (files : List UploadedFile) (outcome : ModelOutcome)
    (h : 5 < files.length) :
    ∃ m, postAnalyze files outcome =
      ({ status := 400, success := false, message := some m,
         data := none, raw := none }, 0) ∧
      (m = "文件上传错误: Unexpected field" ∨ m = "文件上传错误: File too large" ∨
       m = "Only image files are allowed!") := by
  have hov := processUpload_overflow files 0 (by show (0 : Nat) ≤ 5; omega)
    (by show 5 < 0 + files.length; omega)
  unfold postAnalyze
  rcases hov with h1 | h1 | h1 <;> rw [h1]
  · exact ⟨"文件上传错误: Unexpected field", rfl, Or.inl rfl⟩
  · exact ⟨"文件上传错误: File too large", rfl, Or.inr (Or.inl rfl)⟩
  · exact ⟨"Only image files are allowed!", rfl, Or.inr (Or.inr rfl)⟩

/-- Witness for C9: six valid images still get rejected. -/
theorem c9_witness :
    ∃ m, postAnalyze [{ mimetype := "image/png", size := 1 },
      { mimetype := "image/png", size := 2 }, { mimetype := "image/png", size := 3 },
      { mimetype := "image/png", size := 4 }, { mimetype := "image/png", size := 5 },
      { mimetype := "image/png", size := 6 }] (.reply "x") =
      ({ status := 400, success := false, message := some m,
         data := none, raw := none }, 0) ∧
      (m = "文件上传错误: Unexpected field" ∨ m = "文件上传错误: File too large" ∨
       m = "Only image files are allowed!") :=
  c9_too_many_files _ _ (by decide)

/-- C10: every body produced by the analyze route carries a boolean
success flag that is true exactly on HTTP 200, carries `data` exactly
when success is true, carries a message on every error, and carries
`raw` only in the parse-failure answer. -/
theorem c10_envelope_invariant (files : List UploadedFile) (outcome : ModelOutcome) :
    ((postAnalyze files outcome).1.success = true ↔
      (postAnalyze files outcome).1.status = 200) ∧
    ((postAnalyze files outcome).1.data.isSome = true ↔
      (postAnalyze files outcome).1.success = true) ∧
    ((postAnalyze files outcome).1.success = false →
      (postAnalyze files outcome).1.message.isSome = true) ∧
    ((postAnalyze files outcome).1.raw.isSome = true →
      (postAnalyze files outcome).1.status = 500 ∧
      (postAnalyze files outcome).1.success = false ∧
      (postAnalyze files outcome).1.message = some "AI 生成格式解析失败") := by
  unfold postAnalyze
  cases processUpload files 0 with
  | limitError m => simp
  | filterError m => simp
  | ok fs =>
    by_cases hlen : fs.length < 2
    · simp [analyzeCore, hlen]
    · cases outcome with
      | failure msg => simp [analyzeCore, hlen]
      | reply content =>
        cases hp : jsonParse (cleanContent content) with
        | some parsed => simp [analyzeCore, hlen, hp]
        | none => simp [analyzeCore, hlen, hp]

/-- Witness for C10 at a concrete input. -/
theorem c10_witness :
    ((postAnalyze [] (.reply "x")).1.success = true ↔
      (postAnalyze [] (.reply "x")).1.status = 200) ∧
    ((postAnalyze [] (.reply "x")).1.data.isSome = true ↔
      (postAnalyze [] (.reply "x")).1.success = true) ∧
    ((postAnalyze [] (.reply "x")).1.success = false →
      (postAnalyze [] (.reply "x")).1.message.isSome = true) ∧
    ((postAnalyze [] (.reply "x")).1.raw.isSome = true →
      (postAnalyze [] (.reply "x")).1.status = 500 ∧
      (postAnalyze [] (.reply "x")).1.success = false ∧
      (postAnalyze [] (.reply "x")).1.message = some "AI 生成格式解析失败") :=
  c10_envelope_invariant [] (.reply "x")

end Roast
